import Mathlib

/-!
Verification development for the accessibility-analysis backend.

The definitions below are a shallow embedding of the response-synthesis
pipeline of the repository:

* `rekognition-service.js` — label categorizer, per-image label scorer
  (`categorizeObject`, `getPositiveFeatureScore`, `getNegativeFeaturePenalty`,
  `processLabels`, `generateDetailedRecommendations`, `getRatingFromScore`,
  the service-level `calculateOverallConfidence` over labels).
* The OpenRouter/OpenAI text-response parser
  (`parseAnalysisResponse`, `fallbackParsing`, `extractItems`,
  `generateMockAnalysis`).
* The comprehensive-analysis aggregator
  (`analyzeImages`, `synthesizeResults`, `createFallbackAnalysis`,
  `calculateOverallConfidence` over per-image results).

Modelling conventions:
* JavaScript numbers that are integer-valued throughout the relevant code
  are modelled as `Int` (or `Nat` for counts).  `Math.round(x)` on an exact
  fraction `p / q` (`q > 0`) is `(2*p + q).fdiv (2*q)` (round half toward
  positive infinity, as in JS).  Division by zero (JS `NaN`) is outside the
  scope of every claim (all claims assume at least one image).
* Label/analysis confidences are modelled as integers; no claim involves a
  fractional confidence value.
* `JSON.parse` is modelled by an executable strict JSON parser over the
  fragment exercised by this code base: objects, arrays, strings (with the
  standard escapes), integer numerals, booleans and null.  Non-integer
  numerals are not modelled (no claim involves them).
* Impure pieces (winston logging, timestamps, the network calls themselves)
  are dropped; network calls are oracles passed in as `Except`-returning
  functions, matching the JS try/catch boundaries.
-/

/-! ## Generic JavaScript-semantics helpers -/

/-- The `{` character (written via its code point throughout). -/
def braceOpenC : Char := Char.ofNat 123

/-- The `}` character. -/
def braceCloseC : Char := Char.ofNat 125

/-- The `•` bullet character used in the bullet-stripping regex. -/
def bulletC : Char := Char.ofNat 0x2022

/-- Whitespace characters of the JS `\s` class that occur in this code base
(space, tab, newline, carriage return, vertical tab, form feed). -/
def jsWsChar (c : Char) : Bool :=
  c = ' ' || c = '\t' || c = '\n' || c = '\r' || c = Char.ofNat 11 || c = Char.ofNat 12

/-- Lowercasing through the character list (JS `toLowerCase` on the ASCII
strings of this code base); kernel-reducible, unlike `String.toLower`. -/
def strToLower (s : String) : String := String.mk (s.toList.map Char.toLower)

/-- JS `text.split('\n')` (kernel-reducible splitting). -/
def splitNlAux (acc : List Char) : List Char → List String
  | [] => [String.mk acc.reverse]
  | c :: rest =>
    if c = '\n' then String.mk acc.reverse :: splitNlAux [] rest
    else splitNlAux (c :: acc) rest

/-- JS `text.split('\n')`. -/
def splitNl (s : String) : List String := splitNlAux [] s.toList

/-- Does list `hay` start with list `pre`? (model of a prefix test). -/
def listStartsWith : List Char → List Char → Bool
  | [], _ => true
  | _ :: _, [] => false
  | p :: ps, c :: cs => p = c && listStartsWith ps cs

/-- Is `needle` a contiguous sublist of `hay`?  Model of JS
`String.prototype.includes` at the character-list level. -/
def listHasSub (needle : List Char) : List Char → Bool
  | [] => needle.isEmpty
  | c :: cs => listStartsWith needle (c :: cs) || listHasSub needle cs

/-- JS `s.includes(sub)`. -/
def jsIncludes (s sub : String) : Bool := listHasSub sub.toList s.toList

/-- JS `[...new Set(l)]`: deduplicate, keeping first occurrences in order. -/
def jsSetDedup (l : List String) : List String :=
  l.foldl (fun acc s => if acc.contains s then acc else acc ++ [s]) []

/-- JS `Math.round (p / q)` for integer `p` and natural `q > 0`:
round half toward positive infinity.  (`q = 0` is JS `NaN`, out of scope.) -/
def jsRoundDiv (p : Int) (q : Nat) : Int := (2 * p + q).fdiv (2 * q)

/-- JS `x || d` for numbers: `0` is falsy. -/
def jsOrInt (x d : Int) : Int := if x = 0 then d else x

/-- JS `x || d` for strings: the empty string is falsy. -/
def jsOrStr (x d : String) : String := if x = "" then d else x

/-- `Math.max(0, Math.min(100, s))` — the score clamp of `processLabels`. -/
def jsClamp (s : Int) : Int := max 0 (min 100 s)

/-! ## Rating thresholds (`getRatingFromScore`, identical in every service) -/

/-- `getRatingFromScore` from the source (same body in the Rekognition
service, the OpenRouter service and the comprehensive service). -/
def getRatingFromScore (score : Int) : String :=
  if score ≥ 90 then "Excellent"
  else if score ≥ 80 then "Good"
  else if score ≥ 70 then "Fair"
  else if score ≥ 60 then "Poor"
  else "Very Poor"

/-! ## Label categorizer (`rekognition-service.js`) -/

/-- Accessibility categories (`categorizeObject` returns one of these). -/
inductive Category where
  | positive
  | negative
  | safety
  | measurements
  | rooms
  | general
deriving DecidableEq, Repr

/-- `this.accessibilityObjects.positive` from the source. -/
def accessibilityPositive : List String :=
  ["Ramp", "Handrail", "Grab Bar", "Wheelchair Accessible", "Wide Doorway",
   "Elevator", "Lift", "Accessible Bathroom", "Accessible Kitchen",
   "Good Lighting", "Clear Pathway", "Wide Hallway", "Accessible Entrance",
   "Non-slip Surface", "Safety Rail", "Emergency Exit", "Fire Extinguisher",
   "Smoke Detector", "Accessible Counter", "Wide Corridor", "Level Surface"]

/-- `this.accessibilityObjects.negative` from the source. -/
def accessibilityNegative : List String :=
  ["Step", "Stair", "Narrow Doorway", "Threshold", "Barrier", "Obstacle",
   "Cluttered", "Poor Lighting", "Narrow Hallway", "Inaccessible",
   "High Counter", "Narrow Path", "Trip Hazard", "Slippery Surface",
   "Steep Stair", "Narrow Stair", "High Step", "Uneven Surface",
   "Cluttered Hallway", "Narrow Corridor", "High Threshold"]

/-- `this.accessibilityObjects.safety` from the source. -/
def accessibilitySafety : List String :=
  ["Fire Extinguisher", "Smoke Detector", "Emergency Exit", "Safety Rail",
   "Non-slip Surface", "Good Lighting", "Clear Exit", "Emergency Equipment",
   "Exit Sign", "Emergency Lighting", "Safety Equipment"]

/-- `this.accessibilityObjects.measurements` from the source. -/
def accessibilityMeasurements : List String :=
  ["Doorway Width", "Hallway Width", "Stair Width", "Ramp Width",
   "Counter Height", "Threshold Height", "Step Height", "Ramp Slope"]

/-- `this.accessibilityObjects.rooms` from the source. -/
def accessibilityRooms : List String :=
  ["Bathroom", "Kitchen", "Bedroom", "Living Room", "Hallway", "Entrance",
   "Staircase", "Basement", "Attic", "Garage", "Laundry Room"]

/-- Does the (already lowercased) name contain some keyword of the table,
lowercased?  One `for … includes …` loop of `categorizeObject`. -/
def tableMatches (table : List String) (name : String) : Bool :=
  table.any (fun kw => jsIncludes name (strToLower kw))

/-- `categorizeObject` from `rekognition-service.js`: sequential checks of the
five tables, first match wins, `general` otherwise. -/
def categorizeObject (objectName : String) : Category :=
  let name := strToLower objectName
  if tableMatches accessibilityPositive name then .positive
  else if tableMatches accessibilityNegative name then .negative
  else if tableMatches accessibilitySafety name then .safety
  else if tableMatches accessibilityMeasurements name then .measurements
  else if tableMatches accessibilityRooms name then .rooms
  else .general

/-- The five keyword tables in the order the spec fixes:
positive → negative → safety → measurement → room. -/
def orderedCategoryTables : List (Category × List String) :=
  [(.positive, accessibilityPositive),
   (.negative, accessibilityNegative),
   (.safety, accessibilitySafety),
   (.measurements, accessibilityMeasurements),
   (.rooms, accessibilityRooms)]

/-- Spec-side categorizer (from the spec words, for the refinement claim):
return the category of the first ordered table containing a keyword that is a
case-insensitive substring of the label name; `general` if no table matches. -/
def categorizeByFirstMatch (objectName : String) : Category :=
  match orderedCategoryTables.find?
      (fun t => tableMatches t.2 (strToLower objectName)) with
  | some t => t.1
  | none => .general

/-! ## Per-image label scorer (`rekognition-service.js`) -/

/-- `getPositiveFeatureScore` from the source. -/
def getPositiveFeatureScore (featureName : String) : Int :=
  let name := strToLower featureName
  if jsIncludes name "ramp" || jsIncludes name "elevator" || jsIncludes name "lift" then 15
  else if jsIncludes name "wide doorway" || jsIncludes name "wide hallway" ||
      jsIncludes name "accessible entrance" then 12
  else if jsIncludes name "grab bar" || jsIncludes name "handrail" ||
      jsIncludes name "safety rail" then 10
  else if jsIncludes name "accessible bathroom" || jsIncludes name "accessible kitchen" then 8
  else if jsIncludes name "good lighting" || jsIncludes name "clear pathway" then 6
  else 5

/-- `getNegativeFeaturePenalty` from the source. -/
def getNegativeFeaturePenalty (barrierName : String) : Int :=
  let name := strToLower barrierName
  if jsIncludes name "steep stair" || jsIncludes name "narrow stair" ||
      jsIncludes name "high step" then 20
  else if jsIncludes name "narrow doorway" || jsIncludes name "narrow hallway" ||
      jsIncludes name "narrow corridor" then 15
  else if jsIncludes name "high threshold" || jsIncludes name "step" ||
      jsIncludes name "stair" then 12
  else if jsIncludes name "trip hazard" || jsIncludes name "slippery surface" ||
      jsIncludes name "uneven surface" then 10
  else if jsIncludes name "cluttered" || jsIncludes name "poor lighting" then 8
  else 5

/-- A Rekognition label (`{ Name, Confidence }`); confidences are modelled
as integers (no claim involves a fractional confidence). -/
structure Label where
  Name : String
  Confidence : Int
deriving DecidableEq, Repr

/-- A categorized detected object (`{ name, confidence }`). -/
structure DetectedObject where
  name : String
  confidence : Int
deriving DecidableEq, Repr

/-- The `detectedObjects` accumulator of `processLabels` (six category keys). -/
structure DetectedObjects where
  positive : List DetectedObject := []
  negative : List DetectedObject := []
  safety : List DetectedObject := []
  measurements : List DetectedObject := []
  rooms : List DetectedObject := []
  general : List DetectedObject := []
deriving DecidableEq, Repr

/-- Push a detected object into the bucket of its category
(`detectedObjects[category].push(...)`). -/
def DetectedObjects.push (d : DetectedObjects) (cat : Category) (o : DetectedObject) :
    DetectedObjects :=
  match cat with
  | .positive => { d with positive := d.positive ++ [o] }
  | .negative => { d with negative := d.negative ++ [o] }
  | .safety => { d with safety := d.safety ++ [o] }
  | .measurements => { d with measurements := d.measurements ++ [o] }
  | .rooms => { d with rooms := d.rooms ++ [o] }
  | .general => { d with general := d.general ++ [o] }

/-- The per-label loop state of `processLabels`. -/
structure PLState where
  detectedObjects : DetectedObjects := {}
  accessibilityScore : Int := 50
  redFlags : List String := []
  positiveFeatures : List String := []
  measurements : List String := []
  roomAnalysis : List String := []
deriving DecidableEq, Repr

/-- One iteration of the `labels.forEach` loop of `processLabels`.
`Math.round(confidence)` is the identity on the integer confidences of the
model; the annotation strings are built exactly as in the source. -/
def processLabelStep (st : PLState) (label : Label) : PLState :=
  let name := label.Name
  let confidence := label.Confidence
  let category := categorizeObject name
  let st := { st with detectedObjects := st.detectedObjects.push category ⟨name, confidence⟩ }
  match category with
  | .positive =>
      let scoreBoost := getPositiveFeatureScore name
      { st with
        accessibilityScore := st.accessibilityScore + scoreBoost
        positiveFeatures := st.positiveFeatures ++
          [name ++ " (" ++ toString confidence ++ "% confidence) - +" ++
            toString scoreBoost ++ " points"] }
  | .negative =>
      let scorePenalty := getNegativeFeaturePenalty name
      { st with
        accessibilityScore := st.accessibilityScore - scorePenalty
        redFlags := st.redFlags ++
          [name ++ " - Barrier (" ++ toString confidence ++ "% confidence) - -" ++
            toString scorePenalty ++ " points"] }
  | .safety =>
      { st with
        accessibilityScore := st.accessibilityScore + 8
        positiveFeatures := st.positiveFeatures ++
          [name ++ " - Safety feature (" ++ toString confidence ++ "% confidence) - +8 points"] }
  | .measurements =>
      { st with measurements := st.measurements ++
          [name ++ " detected (" ++ toString confidence ++ "% confidence)"] }
  | .rooms =>
      { st with roomAnalysis := st.roomAnalysis ++
          [name ++ " - Room type (" ++ toString confidence ++ "% confidence)"] }
  | .general => st

/-- `generateDetailedRecommendations` from `rekognition-service.js`.  The
literal strings reproduce the source bytes (including its mangled emoji). -/
def generateDetailedRecommendations (detectedObjects : DetectedObjects)
    (redFlags : List String) (_measurements : List String)
    (roomAnalysis : List String) : List String :=
  let recommendations : List String := []
  let recommendations := recommendations ++
    (if redFlags.any (fun flag => jsIncludes flag "Step" || jsIncludes flag "Stair") then
      ["ðŸš¨ CRITICAL: Install ramp for wheelchair access (ADA requires 1:12 slope)",
       "Consider stair lift or elevator for multi-level access"]
    else [])
  let recommendations := recommendations ++
    (if redFlags.any (fun flag => jsIncludes flag "Narrow") then
      ["ðŸš¨ CRITICAL: Widen doorways to minimum 32 inches (ADA standard)",
       "Expand hallways to minimum 36 inches width",
       "Remove or relocate furniture blocking pathways"]
    else [])
  let recommendations := recommendations ++
    (if redFlags.any (fun flag => jsIncludes flag "Poor Lighting") then
      ["ðŸ’¡ Install brighter lighting throughout the property",
       "Add motion-activated lights in hallways and bathrooms",
       "Ensure emergency lighting is functional"]
    else [])
  let recommendations := recommendations ++
    (if detectedObjects.safety.length = 0 then
      ["ðŸ›¡ï¸ Install smoke detectors in all rooms",
       "Add fire extinguisher in kitchen and near exits",
       "Ensure emergency exits are clearly marked"]
    else [])
  let recommendations := recommendations ++
    (if roomAnalysis.any (fun room => jsIncludes room "Bathroom") then
      ((if ¬ detectedObjects.positive.any (fun obj => jsIncludes obj.name "Grab Bar") then
          ["ðŸš¿ Install grab bars in bathroom (near toilet and shower)"]
        else []) ++
       (if ¬ detectedObjects.positive.any (fun obj => jsIncludes obj.name "Accessible") then
          ["ðŸš¿ Consider accessible shower with no threshold"]
        else []))
    else [])
  let recommendations := recommendations ++
    (if roomAnalysis.any (fun room => jsIncludes room "Kitchen") then
      ((if redFlags.any (fun flag => jsIncludes flag "High Counter") then
          ["ðŸ³ Lower counter height or add adjustable counter sections"]
        else []) ++
       ["ðŸ³ Ensure clear pathways around kitchen island"])
    else [])
  let recommendations := recommendations ++
    (if detectedObjects.positive.length = 0 then
      ["â™¿ Add universal design features throughout the home",
       "Install lever-style door handles (easier than knobs)",
       "Ensure all rooms are accessible from main living areas"]
    else [])
  recommendations

/-- The Rekognition service's `calculateOverallConfidence` over labels:
`Math.round` of the average label confidence, `0` for no labels. -/
def rekCalculateOverallConfidence (labels : List Label) : Int :=
  if labels.length = 0 then 0
  else jsRoundDiv ((labels.map Label.Confidence).sum) labels.length

/-- The normalized per-image analysis returned by
`RekognitionService.analyzeAccessibility` / `processLabels`.  The
`analysis.keyFindings` / `analysis.specificFeatures` fields (display-only
summaries consumed by no claim and no aggregator path) are omitted. -/
structure RekAnalysis where
  filename : String
  score : Int
  detectedObjects : DetectedObjects
  positiveFeatures : List String
  redFlags : List String
  measurements : List String
  roomAnalysis : List String
  recommendations : List String
  totalLabels : Nat
  accessibilityRating : String
  confidence : Int
deriving DecidableEq, Repr

/-- `processLabels` from `rekognition-service.js`: fold the per-label loop,
clamp the score to `[0,100]`, derive the rating and recommendations.
`Math.round(accessibilityScore)` is the identity (integer arithmetic). -/
def processLabels (labels : List Label) (filename : String) : RekAnalysis :=
  let st := labels.foldl processLabelStep {}
  let accessibilityScore := jsClamp st.accessibilityScore
  let recommendations := generateDetailedRecommendations st.detectedObjects
    st.redFlags st.measurements st.roomAnalysis
  { filename := filename
    score := accessibilityScore
    detectedObjects := st.detectedObjects
    positiveFeatures := st.positiveFeatures
    redFlags := st.redFlags
    measurements := st.measurements
    roomAnalysis := st.roomAnalysis
    recommendations := recommendations
    totalLabels := labels.length
    accessibilityRating := getRatingFromScore accessibilityScore
    confidence := rekCalculateOverallConfidence labels }

/-! ## JSON model (for `JSON.parse` on the extracted brace span) -/

/-- JSON values over the fragment exercised by the code base (numbers
restricted to integer numerals; see the header note). -/
inductive Json where
  | null
  | bool (b : Bool)
  | num (n : Int)
  | str (s : String)
  | arr (elems : List Json)
  | obj (fields : List (String × Json))
deriving Repr, Inhabited

/-- Skip JSON whitespace (space, tab, newline, carriage return). -/
def skipWs (cs : List Char) : List Char :=
  cs.dropWhile (fun c => c = ' ' || c = '\t' || c = '\n' || c = '\r')

/-- Value of a hexadecimal digit, if any. -/
def hexVal (c : Char) : Option Nat :=
  if c.isDigit then some (c.toNat - 48)
  else if 'a' ≤ c ∧ c ≤ 'f' then some (c.toNat - 87)
  else if 'A' ≤ c ∧ c ≤ 'F' then some (c.toNat - 70)
  else none

/-- The character denoted by a single-character JSON escape. -/
def escChar (c : Char) : Option Char :=
  if c = '"' then some '"'
  else if c = '\\' then some '\\'
  else if c = '/' then some '/'
  else if c = 'b' then some (Char.ofNat 8)
  else if c = 'f' then some (Char.ofNat 12)
  else if c = 'n' then some '\n'
  else if c = 'r' then some '\r'
  else if c = 't' then some '\t'
  else none

/-- Parse the body of a JSON string (after the opening quote), handling the
standard escapes; returns the string and the remaining input. -/
def parseStringAux (acc : List Char) : List Char → Option (String × List Char)
  | [] => none
  | c :: rest =>
    if c = '"' then some (String.mk acc.reverse, rest)
    else if c = '\\' then
      match rest with
      | [] => none
      | e :: rest2 =>
        if e = 'u' then
          match rest2 with
          | h1 :: h2 :: h3 :: h4 :: rest3 =>
            match hexVal h1, hexVal h2, hexVal h3, hexVal h4 with
            | some a, some b, some c2, some d =>
                parseStringAux (Char.ofNat (4096 * a + 256 * b + 16 * c2 + d) :: acc) rest3
            | _, _, _, _ => none
          | _ => none
        else
          match escChar e with
          | some ch => parseStringAux (ch :: acc) rest2
          | none => none
    else parseStringAux (c :: acc) rest

/-- Decimal value of a digit list. -/
def digitsToNat (ds : List Char) : Nat :=
  ds.foldl (fun a c => 10 * a + (c.toNat - 48)) 0

/-- Parse an unsigned JSON integer numeral (strict grammar: `0` or a nonzero
digit followed by digits; a leading zero followed by a digit is rejected,
as `JSON.parse` rejects it). -/
def parseNumAux : List Char → Option (Nat × List Char)
  | [] => none
  | c :: rest =>
    if c = '0' then
      match rest with
      | d :: _ => if d.isDigit then none else some (0, rest)
      | [] => some (0, [])
    else if c.isDigit then
      some (digitsToNat ((c :: rest).takeWhile Char.isDigit),
            (c :: rest).dropWhile Char.isDigit)
    else none

/-- Parse a JSON number (integer numerals only, optional leading minus). -/
def parseNumber (cs : List Char) : Option (Int × List Char) :=
  match cs with
  | '-' :: rest => (parseNumAux rest).map (fun p => (-(p.1 : Int), p.2))
  | _ => (parseNumAux cs).map (fun p => ((p.1 : Int), p.2))

mutual

/-- Parse one JSON value (fuel-indexed recursive-descent). -/
def parseJsonValue : Nat → List Char → Option (Json × List Char)
  | 0, _ => none
  | Nat.succ fuel, cs =>
    match skipWs cs with
    | [] => none
    | c :: rest =>
      if c = 'n' then
        match rest with
        | 'u' :: 'l' :: 'l' :: r => some (.null, r)
        | _ => none
      else if c = 't' then
        match rest with
        | 'r' :: 'u' :: 'e' :: r => some (.bool true, r)
        | _ => none
      else if c = 'f' then
        match rest with
        | 'a' :: 'l' :: 's' :: 'e' :: r => some (.bool false, r)
        | _ => none
      else if c = '"' then
        (parseStringAux [] rest).map (fun p => (.str p.1, p.2))
      else if c = '[' then
        match skipWs rest with
        | ']' :: r => some (.arr [], r)
        | _ => (parseJsonElems fuel rest).map (fun p => (.arr p.1, p.2))
      else if c = braceOpenC then
        match skipWs rest with
        | c2 :: r =>
          if c2 = braceCloseC then some (.obj [], r)
          else (parseJsonFields fuel rest).map (fun p => (.obj p.1, p.2))
        | [] => none
      else (parseNumber (c :: rest)).map (fun p => (.num p.1, p.2))

/-- Parse the comma-separated elements of a JSON array, up to `]`. -/
def parseJsonElems : Nat → List Char → Option (List Json × List Char)
  | 0, _ => none
  | Nat.succ fuel, cs =>
    match parseJsonValue fuel cs with
    | none => none
    | some (v, r1) =>
      match skipWs r1 with
      | ',' :: r2 => (parseJsonElems fuel r2).map (fun p => (v :: p.1, p.2))
      | ']' :: r2 => some ([v], r2)
      | _ => none

/-- Parse the comma-separated `"key": value` fields of a JSON object,
up to `}`. -/
def parseJsonFields : Nat → List Char → Option (List (String × Json) × List Char)
  | 0, _ => none
  | Nat.succ fuel, cs =>
    match skipWs cs with
    | '"' :: r1 =>
      match parseStringAux [] r1 with
      | none => none
      | some (key, r2) =>
        match skipWs r2 with
        | ':' :: r3 =>
          match parseJsonValue fuel r3 with
          | none => none
          | some (v, r4) =>
            match skipWs r4 with
            | ',' :: r5 => (parseJsonFields fuel r5).map (fun p => ((key, v) :: p.1, p.2))
            | c :: r5 => if c = braceCloseC then some ([(key, v)], r5) else none
            | [] => none
        | _ => none
    | _ => none

end

/-- Model of `JSON.parse`: parse one value and require only whitespace to
remain.  The fuel `2 * length + 4` dominates the recursion depth of any
input of this length. -/
def jsonParse (s : String) : Option Json :=
  match parseJsonValue (2 * s.length + 4) s.toList with
  | some (j, rest) => if skipWs rest = [] then some j else none
  | none => none

/-- Model of `analysisText.match(/\{[\s\S]*\}/)`: the greedy span from the
first opening brace to the last closing brace, when the former precedes the
latter. -/
def braceSpan (text : String) : Option String :=
  let cs := text.toList
  match cs.findIdx? (fun c => c = braceOpenC),
        cs.reverse.findIdx? (fun c => c = braceCloseC) with
  | some i, some k =>
    let j := cs.length - 1 - k
    if i < j then some (String.mk ((cs.drop i).take (j - i + 1))) else none
  | _, _ => none

/-! ## Response parser (`parseAnalysisResponse` / `fallbackParsing`) -/

/-- The normalized per-image analysis produced by the text-response parser. -/
structure Analysis where
  filename : String
  score : Int
  positive_features : List String
  barriers : List String
  safety_concerns : List String
  recommendations : List String
  accessibility_rating : String
  priority_improvements : List String
  raw_analysis : String
deriving DecidableEq, Repr

/-- Field lookup on a parsed JSON object (`parsed.name`): with duplicate
keys, `JSON.parse` keeps the last occurrence. -/
def jsField (j : Json) (name : String) : Option Json :=
  match j with
  | .obj fields => (fields.reverse.find? (fun p => p.1 = name)).map (fun p => p.2)
  | _ => none

/-- `parsed.name || 0` for a numeric field (absent, `null`, `false` and `0`
all give `0`; non-numeric truthy values are outside the modelled fragment). -/
def jsGetNum (j : Json) (name : String) : Int :=
  match jsField j name with
  | some (.num n) => n
  | _ => 0

/-- `parsed.name || []` for a list-of-strings field (the schema's element
type; absent or non-array gives `[]`). -/
def jsGetStrList (j : Json) (name : String) : List String :=
  match jsField j name with
  | some (.arr es) => es.filterMap (fun e => match e with | .str s => some s | _ => none)
  | _ => []

/-- `parsed.name || default` for a string field (the empty string is falsy). -/
def jsGetStrOr (j : Json) (name : String) (d : String) : String :=
  match jsField j name with
  | some (.str s) => jsOrStr s d
  | _ => d

/-- The positive-feature keyword set of `fallbackParsing`. -/
def positiveKeywords : List String :=
  ["ramp", "wide", "accessible", "grab bar", "handrail", "good lighting",
   "clear pathway", "accessible bathroom", "accessible kitchen"]

/-- The barrier keyword set of `fallbackParsing`. -/
def barrierKeywords : List String :=
  ["step", "narrow", "threshold", "poor lighting", "cluttered",
   "inaccessible", "trip hazard", "slippery"]

/-- The recommendation-action keyword set of `fallbackParsing`. -/
def recommendationKeywords : List String :=
  ["install", "add", "improve", "widen", "remove", "fix"]

/-- `line.replace(/^[-•*]\s*/, '').trim()`: strip one leading `-`, `•` or `*`
together with the whitespace after it, then trim JS whitespace at both ends. -/
def cleanItemLine (line : String) : String :=
  let cs := line.toList
  let cs :=
    match cs with
    | c :: rest =>
      if c = '-' || c = bulletC || c = '*' then rest.dropWhile jsWsChar else cs
    | [] => cs
  String.mk ((cs.dropWhile jsWsChar).reverse.dropWhile jsWsChar).reverse

/-- One keyword check of the inner loop of `extractItems`: if the line
contains the keyword case-insensitively, push the cleaned line unless it is
empty or already collected. -/
def extractItemsStep (line : String) (items : List String) (keyword : String) :
    List String :=
  if jsIncludes (strToLower line) (strToLower keyword) then
    let cleanLine := cleanItemLine line
    if cleanLine ≠ "" ∧ ¬ items.contains cleanLine then items ++ [cleanLine]
    else items
  else items

/-- The inner keyword loop of `extractItems` for one line. -/
def extractItemsLine (items : List String) (line : String) (keywords : List String) :
    List String :=
  keywords.foldl (extractItemsStep line) items

/-- `extractItems` from the source: scan the text line by line, collect the
cleaned distinct lines containing some keyword, and keep the first 5. -/
def extractItems (text : String) (keywords : List String) : List String :=
  let lines := splitNl text
  (lines.foldl (fun items line => extractItemsLine items line keywords) []).take 5

/-- One position of the `/score[:\s]*(\d+)/i` scan: does `"score"` match
case-insensitively here, followed (after `:`/whitespace) by digits? -/
def scoreAt (cs : List Char) : Option Nat :=
  if listStartsWith ['s', 'c', 'o', 'r', 'e'] (cs.map Char.toLower) then
    let after := (cs.drop 5).dropWhile (fun c => c = ':' || jsWsChar c)
    let digits := after.takeWhile Char.isDigit
    if digits.isEmpty then none else some (digitsToNat digits)
  else none

/-- Left-to-right scan of `/score[:\s]*(\d+)/i`: first match wins. -/
def findScoreAux : List Char → Option Nat
  | [] => none
  | c :: rest =>
    match scoreAt (c :: rest) with
    | some n => some n
    | none => findScoreAux rest

/-- Model of `analysisText.match(/score[:\s]*(\d+)/i)` followed by
`parseInt` of the captured digits. -/
def findScore (text : String) : Option Nat := findScoreAux text.toList

/-- `fallbackParsing` from the source (triggered when no brace span exists or
strict JSON parsing fails). -/
def fallbackParsing (analysisText filename : String) : Analysis :=
  let score : Int :=
    match findScore analysisText with
    | some n => (n : Int)
    | none => 50
  let positiveFeatures := extractItems analysisText positiveKeywords
  let barriers := extractItems analysisText barrierKeywords
  let recommendations := extractItems analysisText recommendationKeywords
  { filename := filename
    score := score
    positive_features := positiveFeatures
    barriers := barriers
    safety_concerns := []
    recommendations := recommendations
    accessibility_rating := getRatingFromScore score
    priority_improvements := recommendations.take 3
    raw_analysis := analysisText }

/-- `parseAnalysisResponse` from the source: greedy brace-span extraction,
strict JSON parse, field mapping with defaults; otherwise fallback. -/
def parseAnalysisResponse (analysisText filename : String) : Analysis :=
  match braceSpan analysisText with
  | some jsonStr =>
    match jsonParse jsonStr with
    | some parsed =>
      { filename := filename
        score := jsGetNum parsed "score"
        positive_features := jsGetStrList parsed "positive_features"
        barriers := jsGetStrList parsed "barriers"
        safety_concerns := jsGetStrList parsed "safety_concerns"
        recommendations := jsGetStrList parsed "recommendations"
        accessibility_rating := jsGetStrOr parsed "accessibility_rating" "Unknown"
        priority_improvements := jsGetStrList parsed "priority_improvements"
        raw_analysis := analysisText }
    | none => fallbackParsing analysisText filename
  | none => fallbackParsing analysisText filename

/-! ## Mock analysis generator (`generateMockAnalysis`) -/

/-- JS `ToInt32`: reduce an integer to the signed 32-bit range. -/
def toInt32 (x : Int) : Int :=
  let r := x % 4294967296
  if r < 2147483648 then r else r - 4294967296

/-- One step of the filename hash:
`a = ((a << 5) - a) + code; a = a & a` (shift and `&` coerce to int32;
the intermediate sum is exact in a JS double). -/
def hashStep (a : Int) (code : Nat) : Int :=
  toInt32 (toInt32 (a * 32) - a + code)

/-- `filename.split('').reduce(...)` — the polynomial rolling hash. -/
def hashString (s : String) : Int :=
  s.toList.foldl (fun a c => hashStep a c.toNat) 0

/-- The fixed recommendation pool of `generateMockAnalysis`. -/
def mockAllRecommendations : List String :=
  ["Install handrails on both sides of stairs for better support",
   "Widen doorways to at least 32 inches for wheelchair access",
   "Add non-slip flooring in wet areas like bathrooms",
   "Improve lighting throughout the space for better visibility",
   "Remove or reduce height of thresholds at doorways",
   "Install grab bars in bathroom near toilet and shower",
   "Ensure clear pathways of at least 36 inches width",
   "Add ramps with proper slope (1:12 ratio) for accessibility",
   "Install lever-style door handles instead of knobs",
   "Add contrasting colors to help with visual navigation"]

/-- The fixed positive-feature pool of `generateMockAnalysis`. -/
def mockPositiveFeatures : List String :=
  ["Wide doorways", "Good lighting", "Clear pathways", "Handrails", "Non-slip surfaces"]

/-- The fixed barrier pool of `generateMockAnalysis`. -/
def mockBarriers : List String :=
  ["Narrow doorways", "Poor lighting", "Cluttered spaces", "High thresholds", "Steep stairs"]

/-- The placeholder analysis returned by `generateMockAnalysis`. -/
structure MockAnalysis where
  score : Int
  confidence : Int
  recommendations : List String
  detectedFeatures : List String
  detectedBarriers : List String
  analysis : String
  method : String
deriving DecidableEq, Repr

/-- `generateMockAnalysis` from the source: a deterministic placeholder
driven by the filename hash. -/
def generateMockAnalysis (filename : String) : MockAnalysis :=
  let hash := hashString filename
  let baseScore : Int := 40 + ((hash.natAbs % 45 : Nat) : Int)
  let numRecs := 3 + (hash + 5).natAbs % 3
  let recommendations := (List.range numRecs).foldl
    (fun recs i =>
      let rec1 := mockAllRecommendations.getD
        ((hash + i * 7).natAbs % mockAllRecommendations.length) ""
      if ¬ recs.contains rec1 then
        recs ++ [mockAllRecommendations.getD
          ((hash + i * 11).natAbs % mockAllRecommendations.length) ""]
      else recs ++ [rec1])
    []
  let numFeatures := 2 + (hash + 10).natAbs % 2
  let detectedFeatures := (List.range numFeatures).foldl
    (fun fs i =>
      let feature := mockPositiveFeatures.getD
        ((hash + i * 3).natAbs % mockPositiveFeatures.length) ""
      if ¬ fs.contains feature then fs ++ [feature] else fs)
    []
  let numBarriers := 1 + (hash + 15).natAbs % 2
  let detectedBarriers := (List.range numBarriers).foldl
    (fun bs i =>
      let barrier := mockBarriers.getD
        ((hash + i * 5).natAbs % mockBarriers.length) ""
      if ¬ bs.contains barrier then bs ++ [barrier] else bs)
    []
  { score := baseScore
    confidence := 85 + ((hash.natAbs % 15 : Nat) : Int)
    recommendations := recommendations
    detectedFeatures := detectedFeatures
    detectedBarriers := detectedBarriers
    analysis := "This space shows " ++ toString detectedFeatures.length ++
      " positive accessibility features and " ++ toString detectedBarriers.length ++
      " areas for improvement. The overall accessibility score is " ++
      toString baseScore ++ "/100."
    method := "Mock AI Analysis" }

/-! ## Aggregator (`ComprehensiveAnalysisService`, Rekognition + Claude
variant of `comprehensive-analysis-service.js`) -/

/-- An image submitted to the batch (`{ filename, base64 }`). -/
structure ImageInput where
  filename : String
  base64 : String
deriving DecidableEq, Repr

/-- The per-image entry of `analysisResults`: either the Rekognition analysis,
or the catch-branch placeholder
`{ error: 'Rekognition analysis failed', score: 0 }`. -/
inductive RekOutcome where
  | ok (a : RekAnalysis)
  | err
deriving DecidableEq, Repr

/-- The `score` field of a per-image entry (the placeholder carries `0`). -/
def RekOutcome.score : RekOutcome → Int
  | .ok a => a.score
  | .err => 0

/-- `result.rekognition.analysis?.confidence || 0`. -/
def RekOutcome.confidenceOr0 : RekOutcome → Int
  | .ok a => a.confidence
  | .err => 0

/-- One element of `analysisResults` (the `claude` key stays `null`). -/
structure ImageResult where
  filename : String
  rekognition : RekOutcome
deriving DecidableEq, Repr

/-- The secondary (whole-set, "Claude") analysis result consumed by
`synthesizeResults`: the fields the aggregator reads. -/
structure ClaudeResult where
  score : Int
  positive_features : List String
  barriers : List String
  recommendations : List String
deriving DecidableEq, Repr

/-- The aggregated `detected_objects` (the aggregator only tracks these four
category keys). -/
structure AggDetectedObjects where
  positive : List DetectedObject := []
  negative : List DetectedObject := []
  safety : List DetectedObject := []
  general : List DetectedObject := []
deriving DecidableEq, Repr

/-- The `analysis_methods` flags of the report. -/
structure AnalysisMethods where
  rekognition : Bool
  claude : Bool
  combined : Bool
deriving DecidableEq, Repr

/-- The `analysis` object of the final report. -/
structure ReportAnalysis where
  overall_score : Int
  analyzed_images : Nat
  positive_features : List String
  barriers : List String
  recommendations : List String
  detailed_results : List ImageResult
  detected_objects : AggDetectedObjects
  analysis_methods : AnalysisMethods
  confidence : Int
  accessibility_rating : String
deriving DecidableEq, Repr

/-- The final report (`timestamp` is impure and omitted). -/
structure Report where
  success : Bool
  analysis : ReportAnalysis
deriving DecidableEq, Repr

/-- The comprehensive service's `calculateOverallConfidence`: rounded mean of
`analysis?.confidence || 0` over the non-errored results, `0` when none. -/
def calculateOverallConfidence (analysisResults : List ImageResult) : Int :=
  let validResults := analysisResults.filter
    (fun r => match r.rekognition with | .ok _ => true | .err => false)
  if validResults.length = 0 then 0
  else jsRoundDiv ((validResults.map (fun r => r.rekognition.confidenceOr0)).sum)
    validResults.length

/-- `synthesizeResults` from the source (Claude call succeeded). -/
def synthesizeResults (analysisResults : List ImageResult)
    (claudeResult : ClaudeResult) (allDetectedObjects : AggDetectedObjects)
    (allPositiveFeatures allRedFlags allRecommendations : List String)
    (totalScore : Int) (imageCount : Nat) : Report :=
  let averageScore := jsRoundDiv totalScore imageCount
  let combinedPositiveFeatures :=
    jsSetDedup (allPositiveFeatures ++ claudeResult.positive_features)
  let combinedRedFlags := jsSetDedup (allRedFlags ++ claudeResult.barriers)
  let combinedRecommendations :=
    jsSetDedup (allRecommendations ++ claudeResult.recommendations)
  { success := true
    analysis :=
      { overall_score := max averageScore (jsOrInt claudeResult.score averageScore)
        analyzed_images := imageCount
        positive_features := combinedPositiveFeatures
        barriers := combinedRedFlags
        recommendations := combinedRecommendations
        detailed_results := analysisResults
        detected_objects := allDetectedObjects
        analysis_methods := { rekognition := true, claude := true, combined := true }
        confidence := calculateOverallConfidence analysisResults
        accessibility_rating :=
          getRatingFromScore (max averageScore (jsOrInt claudeResult.score averageScore)) } }

/-- `createFallbackAnalysis` from the source (Claude call failed). -/
def createFallbackAnalysis (analysisResults : List ImageResult)
    (allDetectedObjects : AggDetectedObjects)
    (allPositiveFeatures allRedFlags allRecommendations : List String)
    (totalScore : Int) (imageCount : Nat) : Report :=
  let averageScore := jsRoundDiv totalScore imageCount
  { success := true
    analysis :=
      { overall_score := averageScore
        analyzed_images := imageCount
        positive_features := jsSetDedup allPositiveFeatures
        barriers := jsSetDedup allRedFlags
        recommendations := jsSetDedup allRecommendations
        detailed_results := analysisResults
        detected_objects := allDetectedObjects
        analysis_methods := { rekognition := true, claude := false, combined := false }
        confidence := calculateOverallConfidence analysisResults
        accessibility_rating := getRatingFromScore averageScore } }

/-- The accumulator threaded through the per-image loop of `analyzeImages`. -/
structure AggState where
  analysisResults : List ImageResult := []
  totalScore : Int := 0
  allPositiveFeatures : List String := []
  allRedFlags : List String := []
  allRecommendations : List String := []
  allDetectedObjects : AggDetectedObjects := {}
deriving Repr

/-- One iteration of the per-image loop of `analyzeImages`: try the
Rekognition analysis, aggregate on success, record the placeholder on
failure. -/
def aggStep (analyze : ImageInput → Except String RekAnalysis)
    (st : AggState) (image : ImageInput) : AggState :=
  match analyze image with
  | .ok rekognitionResult =>
      { analysisResults := st.analysisResults ++
          [{ filename := image.filename, rekognition := .ok rekognitionResult }]
        totalScore := st.totalScore + rekognitionResult.score
        allPositiveFeatures := st.allPositiveFeatures ++ rekognitionResult.positiveFeatures
        allRedFlags := st.allRedFlags ++ rekognitionResult.redFlags
        allRecommendations := st.allRecommendations ++ rekognitionResult.recommendations
        allDetectedObjects :=
          { positive := st.allDetectedObjects.positive ++
              rekognitionResult.detectedObjects.positive
            negative := st.allDetectedObjects.negative ++
              rekognitionResult.detectedObjects.negative
            safety := st.allDetectedObjects.safety ++
              rekognitionResult.detectedObjects.safety
            general := st.allDetectedObjects.general ++
              rekognitionResult.detectedObjects.general } }
  | .error _ =>
      { st with analysisResults := st.analysisResults ++
          [{ filename := image.filename, rekognition := .err }] }

/-- `analyzeImages` from the source: per-image loop with per-image try/catch,
then the whole-set Claude call (the `claude` oracle; reading `images[0]` of an
empty batch throws inside the same try, hence falls back), synthesizing or
falling back. -/
def analyzeImages (analyze : ImageInput → Except String RekAnalysis)
    (claude : ImageInput → Except String ClaudeResult)
    (images : List ImageInput) : Report :=
  let st := images.foldl (aggStep analyze) {}
  match images.head? with
  | some image0 =>
    match claude image0 with
    | .ok claudeResult =>
        synthesizeResults st.analysisResults claudeResult st.allDetectedObjects
          st.allPositiveFeatures st.allRedFlags st.allRecommendations
          st.totalScore images.length
    | .error _ =>
        createFallbackAnalysis st.analysisResults st.allDetectedObjects
          st.allPositiveFeatures st.allRedFlags st.allRecommendations
          st.totalScore images.length
  | none =>
      createFallbackAnalysis st.analysisResults st.allDetectedObjects
        st.allPositiveFeatures st.allRedFlags st.allRecommendations
        st.totalScore images.length

/-- The outcome of one image's analysis as recorded in `analysisResults`
(specification-side view of one loop iteration). -/
def perImage (analyze : ImageInput → Except String RekAnalysis)
    (image : ImageInput) : ImageResult :=
  match analyze image with
  | .ok a => { filename := image.filename, rekognition := .ok a }
  | .error _ => { filename := image.filename, rekognition := .err }

/-- The score one image contributes to the batch total (placeholders
contribute `0`). -/
def perImageScore (analyze : ImageInput → Except String RekAnalysis)
    (image : ImageInput) : Int :=
  match analyze image with
  | .ok a => a.score
  | .error _ => 0

/-! ## Specification-side helpers and concrete example inputs -/

/-- The score delta one label contributes, per the fixed tables:
positive labels add their feature bonus, negative labels subtract their
penalty, safety labels add 8, all other categories contribute 0. -/
def labelDelta (name : String) : Int :=
  match categorizeObject name with
  | .positive => getPositiveFeatureScore name
  | .negative => - getNegativeFeaturePenalty name
  | .safety => 8
  | _ => 0

/-- Provider text whose JSON span carries a score outside `[0,100]`. -/
def exC1Text : String := "\x7b\"score\": 150\x7d"

/-- The provider text of end-to-end scenario example 2. -/
def exC5Text : String :=
  "Great analysis. \x7b\"score\": 92, \"positive_features\":[\"Wide hallway\"], \"barriers\":[], \"recommendations\":[]\x7d"

/-- The greedy brace span of `exC5Text`. -/
def exC5Span : String :=
  "\x7b\"score\": 92, \"positive_features\":[\"Wide hallway\"], \"barriers\":[], \"recommendations\":[]\x7d"

/-- The JSON value `exC5Span` parses to. -/
def exC5Json : Json :=
  .obj [("score", .num 92), ("positive_features", .arr [.str "Wide hallway"]),
        ("barriers", .arr []), ("recommendations", .arr [])]

/-- A brace-free provider text containing a barrier line
(end-to-end scenario example 3). -/
def exC6Text : String :=
  "Overall assessment\nBarrier: narrow doorway causing access issues\nNothing else here"

/-- A concrete one-image batch input. -/
def c2Img : ImageInput := { filename := "w.jpg", base64 := "data" }

/-- A per-image oracle that always succeeds with a fixed label analysis. -/
def c2Analyze : ImageInput → Except String RekAnalysis :=
  fun _ => Except.ok (processLabels [⟨"Ramp", 90⟩] "w.jpg")

/-- A whole-set oracle that succeeds with score 80. -/
def c2Claude : ImageInput → Except String ClaudeResult :=
  fun _ => Except.ok ⟨80, [], [], []⟩

/-- First image of the two-image confidence batch. -/
def c7ImgA : ImageInput := { filename := "a.jpg", base64 := "d" }

/-- Second image of the two-image confidence batch. -/
def c7ImgB : ImageInput := { filename := "b.jpg", base64 := "d" }

/-- A per-image oracle yielding analyses with confidences 95 and 96. -/
def c7Analyze : ImageInput → Except String RekAnalysis := fun img =>
  if img.filename = "a.jpg" then Except.ok (processLabels [⟨"Floor", 95⟩] "a.jpg")
  else Except.ok (processLabels [⟨"Floor", 96⟩] "b.jpg")

/-- A whole-set oracle with falsy (zero) score. -/
def c7Claude : ImageInput → Except String ClaudeResult :=
  fun _ => Except.ok ⟨0, [], [], []⟩

/-- A two-image batch in which exactly the first image's analysis fails. -/
def c8Images : List ImageInput :=
  [{ filename := "fail.jpg", base64 := "x" }, { filename := "ok.jpg", base64 := "y" }]

/-- A per-image oracle that throws for `fail.jpg` and succeeds otherwise. -/
def c8Analyze : ImageInput → Except String RekAnalysis := fun img =>
  if img.filename = "fail.jpg" then Except.error "Rekognition analysis failed"
  else Except.ok (processLabels [] img.filename)

/-- A whole-set oracle that succeeds with score 70. -/
def c8Claude : ImageInput → Except String ClaudeResult :=
  fun _ => Except.ok ⟨70, [], [], []⟩

/-! ## Helper lemmas -/

theorem processLabelStep_score (st : PLState) (l : Label) :
    (processLabelStep st l).accessibilityScore
      = st.accessibilityScore + labelDelta l.Name := by
  unfold processLabelStep labelDelta
  cases h : categorizeObject l.Name <;> (simp [h]; try ring)

theorem processLabelStep_foldl_score (labels : List Label) (st : PLState) :
    (labels.foldl processLabelStep st).accessibilityScore
      = st.accessibilityScore + (labels.map (fun l => labelDelta l.Name)).sum := by
  induction labels generalizing st with
  | nil => simp
  | cons l rest ih =>
      rw [List.foldl_cons, ih, List.map_cons, List.sum_cons, processLabelStep_score]
      ring

theorem aggStep_foldl_results (analyze : ImageInput → Except String RekAnalysis)
    (images : List ImageInput) (st : AggState) :
    (images.foldl (aggStep analyze) st).analysisResults
      = st.analysisResults ++ images.map (perImage analyze) := by
  induction images generalizing st with
  | nil => simp
  | cons img rest ih =>
      rw [List.foldl_cons, ih, List.map_cons]
      cases h : analyze img <;> simp [aggStep, perImage, h]

theorem aggStep_foldl_totalScore (analyze : ImageInput → Except String RekAnalysis)
    (images : List ImageInput) (st : AggState) :
    (images.foldl (aggStep analyze) st).totalScore
      = st.totalScore + (images.map (perImageScore analyze)).sum := by
  induction images generalizing st with
  | nil => simp
  | cons img rest ih =>
      rw [List.foldl_cons, ih, List.map_cons, List.sum_cons]
      cases h : analyze img <;> (simp [aggStep, perImageScore, h]; try ring)

theorem extractItemsStep_nodup (line keyword : String) (items : List String)
    (h : items.Nodup) : (extractItemsStep line items keyword).Nodup := by
  unfold extractItemsStep
  by_cases h1 : jsIncludes (strToLower line) (strToLower keyword)
  · rw [if_pos h1]
    by_cases h2 : cleanItemLine line ≠ "" ∧ ¬ items.contains (cleanItemLine line)
    · rw [if_pos h2]
      refine List.Nodup.append h (List.nodup_singleton _) ?_
      intro x hx hx2
      simp only [List.mem_singleton] at hx2
      subst hx2
      exact h2.2 (List.elem_iff.mpr hx)
    · rw [if_neg h2]; exact h
  · rw [if_neg h1]; exact h

theorem extractItemsLine_nodup (line : String) (keywords : List String)
    (items : List String) (h : items.Nodup) :
    (extractItemsLine items line keywords).Nodup := by
  induction keywords generalizing items with
  | nil => exact h
  | cons kw rest ih =>
      unfold extractItemsLine at *
      rw [List.foldl_cons]
      exact ih _ (extractItemsStep_nodup line kw items h)

theorem extractItems_fold_nodup (keywords : List String) (lines : List String)
    (items : List String) (h : items.Nodup) :
    (lines.foldl (fun its line => extractItemsLine its line keywords) items).Nodup := by
  induction lines generalizing items with
  | nil => exact h
  | cons line rest ih =>
      rw [List.foldl_cons]
      exact ih _ (extractItemsLine_nodup line keywords items h)

theorem extractItems_nodup (text : String) (keywords : List String) :
    (extractItems text keywords).Nodup := by
  unfold extractItems
  exact List.Nodup.sublist (List.take_sublist _ _)
    (extractItems_fold_nodup keywords (splitNl text) [] List.nodup_nil)

theorem extractItems_len (text : String) (keywords : List String) :
    (extractItems text keywords).length ≤ 5 := by
  unfold extractItems
  exact List.length_take_le _ _

/-! ## Claim theorems -/

/-- C1, counterexample: the primary JSON parse path does not clamp — the
provider text whose JSON object carries `"score": 150` parses to a per-image
analysis with score 150, violating `score ≤ 100`. -/
theorem claim_C1_counterexample :
    (parseAnalysisResponse exC1Text "img.jpg").score = 150 ∧
    ¬ ((parseAnalysisResponse exC1Text "img.jpg").score ≤ 100) :=
  ⟨by decide, by decide⟩

/-- C1, amended: the clamping invariant holds for the label-based scorer —
every `processLabels` score lies in `[0,100]`.  (The parse paths return the
extracted score unclamped; see the counterexample.) -/
theorem claim_C1_label_scorer_clamped :
    ∀ (labels : List Label) (filename : String),
      0 ≤ (processLabels labels filename).score ∧
      (processLabels labels filename).score ≤ 100 := by
  intro labels filename
  have h : (processLabels labels filename).score
      = jsClamp ((labels.foldl processLabelStep {}).accessibilityScore) := rfl
  rw [h]
  unfold jsClamp
  exact ⟨le_max_left 0 _, max_le (by norm_num) (min_le_left _ _)⟩

/-- C2: for a batch with at least one image whose per-image scores are all
nonnegative (as every real per-image analysis is), when the whole-set call
succeeds with result `c` the report's `overall_score` is the maximum of the
rounded mean of all per-image scores (zero-score placeholders included, with
the image count as divisor) and the secondary score. -/
theorem claim_C2_overall_score (images : List ImageInput)
    (analyze : ImageInput → Except String RekAnalysis)
    (claude : ImageInput → Except String ClaudeResult)
    (c : ClaudeResult) (img0 : ImageInput)
    (hhead : images.head? = some img0)
    (hclaude : claude img0 = Except.ok c)
    (hscores : ∀ image a, analyze image = Except.ok a → 0 ≤ a.score) :
    (analyzeImages analyze claude images).analysis.overall_score
      = max (jsRoundDiv ((images.map (perImageScore analyze)).sum) images.length)
          c.score := by
  have hsum : 0 ≤ (images.map (perImageScore analyze)).sum := by
    apply List.sum_nonneg
    intro x hx
    simp only [List.mem_map] at hx
    obtain ⟨img, _, rfl⟩ := hx
    unfold perImageScore
    cases h : analyze img
    · simp
    · exact hscores img _ h
  have havg : 0 ≤ jsRoundDiv ((images.map (perImageScore analyze)).sum) images.length := by
    unfold jsRoundDiv
    apply Int.fdiv_nonneg <;> omega
  unfold analyzeImages
  rw [hhead]
  simp only [hclaude]
  simp only [synthesizeResults, aggStep_foldl_totalScore]
  generalize hv : jsRoundDiv ((images.map (perImageScore analyze)).sum) images.length
    = avg at *
  simp only [jsOrInt]
  by_cases hc : c.score = 0
  · simp only [hc, if_pos rfl, zero_add]
    omega
  · simp only [if_neg hc, zero_add]
    rw [hv]

/-- C2, witness: a one-image batch with per-image score 65 and secondary
score 80 yields `overall_score = max 65 80`. -/
theorem claim_C2_overall_score_witness :
    (analyzeImages c2Analyze c2Claude [c2Img]).analysis.overall_score
      = max (jsRoundDiv (([c2Img].map (perImageScore c2Analyze)).sum)
          ([c2Img] : List ImageInput).length) (80 : Int) :=
  claim_C2_overall_score [c2Img] c2Analyze c2Claude ⟨80, [], [], []⟩ c2Img rfl rfl
    (by intro image a h
        injection h with h2
        subst h2
        decide)

/-- C3: the categorizer coincides with first-match over the ordered tables
positive → negative → safety → measurement → room (and `general` otherwise);
in particular the label name "Ramp Step" matches both a positive and a
negative keyword and is categorized positive. -/
theorem claim_C3_categorizer_first_match :
    (∀ name : String, categorizeObject name = categorizeByFirstMatch name) ∧
    tableMatches accessibilityPositive (strToLower "Ramp Step") = true ∧
    tableMatches accessibilityNegative (strToLower "Ramp Step") = true ∧
    categorizeObject "Ramp Step" = Category.positive := by
  refine ⟨?_, by decide, by decide, by decide⟩
  intro name
  unfold categorizeObject categorizeByFirstMatch orderedCategoryTables
  cases h1 : tableMatches accessibilityPositive (strToLower name) <;>
  cases h2 : tableMatches accessibilityNegative (strToLower name) <;>
  cases h3 : tableMatches accessibilitySafety (strToLower name) <;>
  cases h4 : tableMatches accessibilityMeasurements (strToLower name) <;>
  cases h5 : tableMatches accessibilityRooms (strToLower name) <;>
  simp [List.find?, h1, h2, h3, h4, h5]

/-- C4: the label-based per-image score is 50 plus the sum of the fixed
per-label deltas, clamped to `[0,100]`; the label set
`[Ramp 90%, Narrow Doorway 80%]` yields score 50 and rating "Very Poor". -/
theorem claim_C4_label_scorer_additive :
    (∀ (labels : List Label) (filename : String),
        (processLabels labels filename).score
          = jsClamp (50 + (labels.map (fun l => labelDelta l.Name)).sum)) ∧
    (processLabels [⟨"Ramp", 90⟩, ⟨"Narrow Doorway", 80⟩] "img.jpg").score = 50 ∧
    (processLabels [⟨"Ramp", 90⟩, ⟨"Narrow Doorway", 80⟩] "img.jpg").accessibilityRating
      = "Very Poor" := by
  refine ⟨?_, by decide, by decide⟩
  intro labels filename
  have h : (processLabels labels filename).score
      = jsClamp ((labels.foldl processLabelStep {}).accessibilityScore) := rfl
  rw [h, processLabelStep_foldl_score]

/-- C5, counterexample: end-to-end scenario example 2 does parse via the
primary path with score 92, but its `accessibility_rating` is "Unknown"
(the default for the missing JSON field), not "Excellent" — the primary path
does not derive the rating from the score. -/
theorem claim_C5_counterexample :
    (parseAnalysisResponse exC5Text "photo.jpg").score = 92 ∧
    (parseAnalysisResponse exC5Text "photo.jpg").accessibility_rating ≠ "Excellent" :=
  ⟨by decide, by decide⟩

/-- C5, amended: whenever the greedy brace span of the provider text
strict-JSON-parses, `parseAnalysisResponse` maps the recognized fields into
the per-image analysis with the defaults (zero score, empty lists, rating
"Unknown") for missing fields; example 2's text yields score 92 and rating
"Unknown". -/
theorem claim_C5_primary_parse :
    (∀ (text filename jsonStr : String) (parsed : Json),
        braceSpan text = some jsonStr → jsonParse jsonStr = some parsed →
        parseAnalysisResponse text filename =
          { filename := filename
            score := jsGetNum parsed "score"
            positive_features := jsGetStrList parsed "positive_features"
            barriers := jsGetStrList parsed "barriers"
            safety_concerns := jsGetStrList parsed "safety_concerns"
            recommendations := jsGetStrList parsed "recommendations"
            accessibility_rating := jsGetStrOr parsed "accessibility_rating" "Unknown"
            priority_improvements := jsGetStrList parsed "priority_improvements"
            raw_analysis := text }) ∧
    (parseAnalysisResponse exC5Text "photo.jpg").score = 92 ∧
    (parseAnalysisResponse exC5Text "photo.jpg").positive_features = ["Wide hallway"] ∧
    (parseAnalysisResponse exC5Text "photo.jpg").accessibility_rating = "Unknown" := by
  refine ⟨?_, by decide, by decide, by decide⟩
  intro text filename jsonStr parsed h1 h2
  simp only [parseAnalysisResponse, h1, h2]

/-- C5, witness: on example 2's text the brace span and its JSON value are
as computed, and the theorem's field mapping applies to them. -/
theorem claim_C5_primary_parse_witness :
    braceSpan exC5Text = some exC5Span ∧
    jsonParse exC5Span = some exC5Json ∧
    parseAnalysisResponse exC5Text "photo.jpg" =
      { filename := "photo.jpg"
        score := jsGetNum exC5Json "score"
        positive_features := jsGetStrList exC5Json "positive_features"
        barriers := jsGetStrList exC5Json "barriers"
        safety_concerns := jsGetStrList exC5Json "safety_concerns"
        recommendations := jsGetStrList exC5Json "recommendations"
        accessibility_rating := jsGetStrOr exC5Json "accessibility_rating" "Unknown"
        priority_improvements := jsGetStrList exC5Json "priority_improvements"
        raw_analysis := exC5Text } :=
  ⟨by decide, rfl,
   claim_C5_primary_parse.1 exC5Text "photo.jpg" exC5Span exC5Json (by decide) rfl⟩

/-- C6: when no brace span exists (or its JSON parse fails), the parser falls
back to `fallbackParsing`, whose score is the first `/score[:\s]*(\d+)/i`
match defaulting to 50, and whose three lists are the distinct matching lines
(at most 5 each, bullets stripped) for the three fixed keyword sets; the
brace-free example text yields its barrier line, score 50, rating
"Very Poor". -/
theorem claim_C6_fallback_parse_path :
    (∀ text filename : String, braceSpan text = none →
        parseAnalysisResponse text filename = fallbackParsing text filename) ∧
    (∀ text filename jsonStr : String,
        braceSpan text = some jsonStr → jsonParse jsonStr = none →
        parseAnalysisResponse text filename = fallbackParsing text filename) ∧
    (∀ text filename : String,
        (fallbackParsing text filename).score
          = ((findScore text).map (fun n => (n : Int))).getD 50 ∧
        (fallbackParsing text filename).positive_features
          = extractItems text positiveKeywords ∧
        (fallbackParsing text filename).barriers = extractItems text barrierKeywords ∧
        (fallbackParsing text filename).recommendations
          = extractItems text recommendationKeywords) ∧
    (∀ text : String, ∀ keywords : List String,
        (extractItems text keywords).length ≤ 5 ∧ (extractItems text keywords).Nodup) ∧
    ((fallbackParsing exC6Text "img.jpg").barriers
        = ["Barrier: narrow doorway causing access issues"] ∧
      (fallbackParsing exC6Text "img.jpg").score = 50 ∧
      (fallbackParsing exC6Text "img.jpg").accessibility_rating = "Very Poor") := by
  refine ⟨?_, ?_, ?_, ?_, by decide, by decide, by decide⟩
  · intro text filename h
    unfold parseAnalysisResponse
    rw [h]
  · intro text filename jsonStr h1 h2
    simp only [parseAnalysisResponse, h1, h2]
  · intro text filename
    refine ⟨?_, rfl, rfl, rfl⟩
    show (match findScore text with | some n => (n : Int) | none => 50) = _
    cases findScore text <;> rfl
  · intro text keywords
    exact ⟨extractItems_len text keywords, extractItems_nodup text keywords⟩

/-- C6, witness: the example text has no brace span, so the parser takes the
fallback path on it. -/
theorem claim_C6_fallback_parse_path_witness :
    braceSpan exC6Text = none ∧
    parseAnalysisResponse exC6Text "img.jpg" = fallbackParsing exC6Text "img.jpg" :=
  ⟨by decide, claim_C6_fallback_parse_path.1 exC6Text "img.jpg" (by decide)⟩

/-- C7, counterexample: a two-image batch whose valid per-image confidences
are 95 and 96 yields report confidence 96, not the mean 95.5 — the code
stores `Math.round` of the mean, not the mean. -/
theorem claim_C7_counterexample :
    (processLabels [⟨"Floor", 95⟩] "a.jpg").confidence = 95 ∧
    (processLabels [⟨"Floor", 96⟩] "b.jpg").confidence = 96 ∧
    (analyzeImages c7Analyze c7Claude [c7ImgA, c7ImgB]).analysis.confidence = 96 ∧
    ¬ (((analyzeImages c7Analyze c7Claude [c7ImgA, c7ImgB]).analysis.confidence : ℚ)
        = (95 + 96) / 2) := by
  refine ⟨by decide, by decide, by decide, ?_⟩
  intro hq
  rw [(by decide :
    (analyzeImages c7Analyze c7Claude [c7ImgA, c7ImgB]).analysis.confidence
      = (96 : Int))] at hq
  norm_num at hq

/-- C7, amended: for every nonempty batch, the report's confidence is the
JS-rounded mean of the per-image confidences over the valid (non-errored)
per-image results (missing confidences read as 0), and 0 when no valid
result exists. -/
theorem claim_C7_confidence_rounded_mean (images : List ImageInput)
    (analyze : ImageInput → Except String RekAnalysis)
    (claude : ImageInput → Except String ClaudeResult)
    (h : images ≠ []) :
    (analyzeImages analyze claude images).analysis.confidence
      = (let valid := (images.map (perImage analyze)).filter
            (fun r => match r.rekognition with | .ok _ => true | .err => false)
         if valid.length = 0 then 0
         else jsRoundDiv ((valid.map (fun r => r.rekognition.confidenceOr0)).sum)
           valid.length) := by
  unfold analyzeImages
  cases images with
  | nil => exact absurd rfl h
  | cons img0 rest =>
      simp only [List.head?_cons]
      cases hc : claude img0 <;>
        simp only [synthesizeResults, createFallbackAnalysis, calculateOverallConfidence,
          aggStep_foldl_results, List.nil_append]

/-- C7, witness: the amended statement applied to the concrete two-image
batch with confidences 95 and 96. -/
theorem claim_C7_confidence_rounded_mean_witness :
    (analyzeImages c7Analyze c7Claude [c7ImgA, c7ImgB]).analysis.confidence
      = (let valid := (([c7ImgA, c7ImgB] : List ImageInput).map (perImage c7Analyze)).filter
            (fun r => match r.rekognition with | .ok _ => true | .err => false)
         if valid.length = 0 then 0
         else jsRoundDiv ((valid.map (fun r => r.rekognition.confidenceOr0)).sum)
           valid.length) :=
  claim_C7_confidence_rounded_mean [c7ImgA, c7ImgB] c7Analyze c7Claude
    (List.cons_ne_nil _ _)

/-- C8: in a batch of at least two images in which the per-image analysis of
image `i` throws and every other image's analysis succeeds, the aggregator
records the zero-score placeholder for image `i`, leaves every other
per-image result the unchanged analysis of its image, and still returns a
report with `analyzed_images` equal to the batch size. -/
theorem claim_C8_partial_failure (images : List ImageInput)
    (analyze : ImageInput → Except String RekAnalysis)
    (claude : ImageInput → Except String ClaudeResult)
    (i : Nat) (hi : i < images.length) (hN : 2 ≤ images.length) (e : String)
    (hfail : analyze (images.get ⟨i, hi⟩) = Except.error e)
    (hok : ∀ (j : Nat) (hj : j < images.length), j ≠ i →
        ∃ a, analyze (images.get ⟨j, hj⟩) = Except.ok a) :
    (analyzeImages analyze claude images).analysis.analyzed_images = images.length ∧
    (analyzeImages analyze claude images).analysis.detailed_results
      = images.map (perImage analyze) ∧
    perImage analyze (images.get ⟨i, hi⟩)
      = { filename := (images.get ⟨i, hi⟩).filename, rekognition := RekOutcome.err } ∧
    (perImage analyze (images.get ⟨i, hi⟩)).rekognition.score = 0 ∧
    (∀ (j : Nat) (hj : j < images.length), j ≠ i →
        (perImage analyze (images.get ⟨j, hj⟩)).rekognition ≠ RekOutcome.err) ∧
    (∀ (j : Nat) (hj : j < images.length), j ≠ i → ∀ a,
        analyze (images.get ⟨j, hj⟩) = Except.ok a →
        perImage analyze (images.get ⟨j, hj⟩)
          = { filename := (images.get ⟨j, hj⟩).filename,
              rekognition := RekOutcome.ok a }) := by
  refine ⟨?_, ?_, ?_, ?_, ?_, ?_⟩
  · unfold analyzeImages
    cases images with
    | nil => simp at hN
    | cons img0 rest =>
        simp only [List.head?_cons]
        cases hc : claude img0 <;> rfl
  · unfold analyzeImages
    cases images with
    | nil => simp at hN
    | cons img0 rest =>
        simp only [List.head?_cons]
        cases hc : claude img0 <;>
          simp only [synthesizeResults, createFallbackAnalysis, aggStep_foldl_results,
            List.nil_append]
  · unfold perImage
    rw [hfail]
  · unfold perImage
    rw [hfail]
    rfl
  · intro j hj hne
    obtain ⟨a, ha⟩ := hok j hj hne
    unfold perImage
    rw [ha]
    simp
  · intro j hj hne a ha
    unfold perImage
    rw [ha]

/-- C8, witness: in the concrete two-image batch where `fail.jpg` throws,
the report still counts both images. -/
theorem claim_C8_partial_failure_witness :
    c8Analyze (c8Images.get ⟨0, by decide⟩)
      = Except.error "Rekognition analysis failed" ∧
    (analyzeImages c8Analyze c8Claude c8Images).analysis.analyzed_images
      = c8Images.length :=
  ⟨rfl,
    (claim_C8_partial_failure c8Images c8Analyze c8Claude 0 (by decide) (by decide)
      "Rekognition analysis failed" rfl
      (by intro j hj hne
          match j, hj with
          | 0, _ => exact absurd rfl hne
          | 1, _ => exact ⟨processLabels [] "ok.jpg", rfl⟩
          | n + 2, hj => exact absurd hj (by simp [c8Images]))).1⟩

/-- C9: the mock generator is a pure function of the filename (identical
invocations yield identical placeholder analyses), its score always lies in
the generator's bounds `[40, 84]`, and the distinct filenames "a.jpg" and
"b.jpg" receive different scores. -/
theorem claim_C9_mock_determinism :
    (∀ filename : String, generateMockAnalysis filename = generateMockAnalysis filename) ∧
    (∀ filename : String, 40 ≤ (generateMockAnalysis filename).score ∧
        (generateMockAnalysis filename).score ≤ 84) ∧
    (generateMockAnalysis "a.jpg").score ≠ (generateMockAnalysis "b.jpg").score := by
  refine ⟨fun _ => rfl, ?_, by decide⟩
  intro filename
  have h : (generateMockAnalysis filename).score
      = 40 + (((hashString filename).natAbs % 45 : Nat) : Int) := rfl
  rw [h]
  have := Nat.mod_lt (hashString filename).natAbs (show 0 < 45 by norm_num)
  omega

/-- C10: the fallback parse path always returns empty `safety_concerns` and
sets `priority_improvements` to the first three extracted recommendations. -/
theorem claim_C10_fallback_fixed_fields :
    ∀ (text filename : String),
      (fallbackParsing text filename).safety_concerns = [] ∧
      (fallbackParsing text filename).priority_improvements
        = (fallbackParsing text filename).recommendations.take 3 :=
  fun _ _ => ⟨rfl, rfl⟩
